import Mathlib

/-!
Verification of the GPU device reporting and health monitoring loop of the
statesinformer package (pkg/koordlet/statesinformer GPU device file of this
repository).

The embedding below translates, function by function, the Go source:
  - buildGPUDevice: joins the metrics query result with the unhealthy-GPU set
    into a list of DeviceInfo records;
  - updateDevice / createDevice / reportDevice: the reconciliation cycle
    against the cluster object store (the Device custom resource);
  - checkHealth / gpuHealCheck: the nvml fault-event registration and event
    loop feeding the unhealthy-GPU set.

External collaborators (the nvml library, the metrics cache, the device
client) appear as explicit inputs: injected return codes, a query result
value, and a store state with injectable per-operation errors.  Machine
integers (int32 minor indices, int64 byte quantities) are modelled as Int;
none of the embedded code can overflow them.  Quantity values compare by
numeric value, matching the semantic deep-equality used by the source.
-/

/-- Return code of an nvml call; only the constructors the embedded code
distinguishes are modelled (SUCCESS, ERROR_NOT_SUPPORTED, and a catch-all
for every other non-success code such as ERROR_TIMEOUT or ERROR_UNKNOWN). -/
inductive NvmlRet where
  | success
  | errorNotSupported
  | errorTimeout
  | errorUnknown
deriving DecidableEq, Repr

/-- Resource names used by buildGPUDevice: extension.GPUCore,
extension.GPUMemory, extension.GPUMemoryRatio. -/
inductive ResourceName where
  | gpuCore
  | gpuMemory
  | gpuMemoryRatio
deriving DecidableEq, Repr

/-- Device type; the source only ever constructs schedulingv1alpha1.GPU. -/
inductive DeviceType where
  | gpu
deriving DecidableEq, Repr

/-- schedulingv1alpha1.DeviceInfo.  The Resources map always holds exactly the
three keys written by buildGPUDevice, so it is embedded as an association
list constructed in a fixed key order; resource.Quantity is embedded as its
integer value (the source compares quantities semantically, i.e. by value). -/
structure DeviceInfo where
  uuid : String
  minor : Int
  deviceType : DeviceType
  health : Bool
  resources : List (ResourceName × Int)
deriving DecidableEq, Repr

/-- One GPU entry of the node resource metric returned by the metrics cache. -/
structure GPUMetric where
  deviceUUID : String
  minor : Int
  memoryTotal : Int
deriving DecidableEq, Repr

/-- Result of metricsCache.GetNodeResourceMetric: hasError models
nodeResource.Error being non-nil, gpus models nodeResource.Metric.GPUs. -/
structure NodeResourceQueryResult where
  hasError : Bool
  gpus : List GPUMetric
deriving DecidableEq, Repr

/-- buildGPUDevice: on a metrics error or an empty GPU list return nil;
otherwise build one DeviceInfo per metric-reported GPU, with health false
exactly when the UUID is in the unhealthy-GPU set, and the fixed-shape
resource map (GPUCore 100, GPUMemory from the metric, GPUMemoryRatio 100). -/
def buildGPUDevice (nodeResource : NodeResourceQueryResult)
    (unhealthyGPU : List String) : List DeviceInfo :=
  if nodeResource.hasError then []
  else if nodeResource.gpus.length = 0 then []
  else
    nodeResource.gpus.map fun gpu =>
      { uuid := gpu.deviceUUID
        minor := gpu.minor
        deviceType := DeviceType.gpu
        health := if gpu.deviceUUID ∈ unhealthyGPU then false else true
        resources := [(ResourceName.gpuCore, 100),
                      (ResourceName.gpuMemory, gpu.memoryTotal),
                      (ResourceName.gpuMemoryRatio, 100)] }

/-- Errors the device client can report: the distinguished kinds the source
tests for (IsNotFound, IsAlreadyExists, IsConflict, IsTooManyRequests),
plus representatives of non-recoverable kinds. -/
inductive StoreErr where
  | notFound
  | alreadyExists
  | conflict
  | tooManyRequests
  | forbidden
  | malformed
deriving DecidableEq, Repr

/-- The device client together with the stored Device resource for the one
node the informer reports (resource is its Spec.Devices list; object
metadata, which the embedded claims never inspect, is elided).  The three
err fields inject the outcome of the corresponding store operation: none
means the operation behaves normally, some e means it fails with e. -/
structure Store where
  resource : Option (List DeviceInfo)
  getErr : Option StoreErr
  updateErr : Option StoreErr
  createErr : Option StoreErr
deriving DecidableEq, Repr

/-- deviceClient.Get for the node name: injected error first, otherwise
NotFound when no resource exists, otherwise the stored device list. -/
def storeGet (st : Store) : Except StoreErr (List DeviceInfo) :=
  match st.getErr with
  | some e => Except.error e
  | none =>
    match st.resource with
    | none => Except.error StoreErr.notFound
    | some devs => Except.ok devs

/-- deviceClient.Update: injected error first, otherwise replace the stored
device list. -/
def storeUpdate (st : Store) (devs : List DeviceInfo) : Store × Option StoreErr :=
  match st.updateErr with
  | some e => (st, some e)
  | none => ({ st with resource := some devs }, none)

/-- deviceClient.Create: injected error first, otherwise AlreadyExists when a
resource is present, otherwise store the device list. -/
def storeCreate (st : Store) (devs : List DeviceInfo) : Store × Option StoreErr :=
  match st.createErr with
  | some e => (st, some e)
  | none =>
    match st.resource with
    | some _ => (st, some StoreErr.alreadyExists)
    | none => ({ st with resource := some devs }, none)

/-- Comparison relation of the sorter closure in updateDevice: the Go code
sorts with the strict less devices[i].Minor < devices[j].Minor, producing a
list nondecreasing in Minor. -/
def minorLe (a b : DeviceInfo) : Prop := a.minor ≤ b.minor

instance : DecidableRel minorLe := fun a b =>
  inferInstanceAs (Decidable (a.minor ≤ b.minor))

instance : IsTotal DeviceInfo minorLe := ⟨fun a b => Int.le_total a.minor b.minor⟩

instance : IsTrans DeviceInfo minorLe := ⟨fun _ _ _ h₁ h₂ => le_trans h₁ h₂⟩

/-- The sorter closure of updateDevice: sort a device list by Minor
ascending.  sort.Slice on a slice this code passes (length below the
pdqsort threshold) runs an insertion sort, so insertion sort is the
faithful deterministic model of its tie behaviour as well. -/
def sortByMinor (devices : List DeviceInfo) : List DeviceInfo :=
  devices.insertionSort minorLe

/-- Outcome of updateDevice: the resulting store, the error returned to
reportDevice, and how many Get and Update calls the store served. -/
structure UpdateResult where
  store : Store
  err : Option StoreErr
  gets : Nat
  updates : Nat
deriving DecidableEq, Repr

/-- One pass of the closure handed to RetryOnConflictOrTooManyRequests in
updateDevice: Get the resource (propagating the error), sort the stored
list, return nil without writing when it deeply equals the (already sorted)
snapshot, otherwise replace the Spec with the snapshot and Update. -/
def updateAttempt (gpuDevices : List DeviceInfo) (st : Store) : UpdateResult :=
  match storeGet st with
  | Except.error e => ⟨st, some e, 1, 0⟩
  | Except.ok stored =>
    if gpuDevices = sortByMinor stored then ⟨st, none, 1, 0⟩
    else
      let upd := storeUpdate st gpuDevices
      ⟨upd.1, upd.2, 1, 1⟩

/-- Modelled from the spec: util.RetryOnConflictOrTooManyRequests is code of
this repository that is not under src; the spec describes it as a bounded
client-side retry that re-runs the read-modify-write closure while the
store reports a conflict or a rate-limit error, up to the retry policy
step limit (the backoff curve itself is declared an implementation
choice).  fuel is the number of retries remaining. -/
def retryOnConflictOrTooManyRequests (gpuDevices : List DeviceInfo) :
    Nat → Store → UpdateResult
  | 0, st => updateAttempt gpuDevices st
  | Nat.succ fuel, st =>
    let r := updateAttempt gpuDevices st
    if r.err = some StoreErr.conflict ∨ r.err = some StoreErr.tooManyRequests then
      let r2 := retryOnConflictOrTooManyRequests gpuDevices fuel r.store
      ⟨r2.store, r2.err, r.gets + r2.gets, r.updates + r2.updates⟩
    else r

/-- Retry step limit of the default client-side retry policy. -/
def retrySteps : Nat := 4

/-- updateDevice: sort the snapshot by Minor, then run the read-compare-write
closure under the conflict retry wrapper. -/
def updateDevice (gpuDevices : List DeviceInfo) (st : Store) : UpdateResult :=
  retryOnConflictOrTooManyRequests (sortByMinor gpuDevices) retrySteps st

/-- createDevice: build the Device object for the node (owner reference
metadata elided, as no claim inspects it) and Create it. -/
def createDevice (gpuDevices : List DeviceInfo) (st : Store) :
    Store × Option StoreErr :=
  storeCreate st gpuDevices

/-- Observable outcome of one reportDevice cycle.  The Go function has
signature func reportDevice() and every one of its return statements
returns nothing, so the returned field is none on each path of this
translation; logged records the errors passed to klog.Errorf in order;
gets, updates and creates count the store calls the cycle performed. -/
structure CycleResult where
  store : Store
  returned : Option StoreErr
  logged : List StoreErr
  gets : Nat
  updates : Nat
  creates : Nat
deriving DecidableEq, Repr

/-- reportDevice: build the snapshot, try the update path; on success return;
on a non-NotFound error log it and return; on NotFound return when the
snapshot is empty, otherwise Create, logging a create failure.  Note the Go
sorter mutates the gpuDevices slice in place inside updateDevice, so the
create path stores the sorted list. -/
def reportDevice (nodeResource : NodeResourceQueryResult)
    (unhealthyGPU : List String) (st : Store) : CycleResult :=
  let gpuDevices := buildGPUDevice nodeResource unhealthyGPU
  let r := updateDevice gpuDevices st
  match r.err with
  | none => ⟨r.store, none, [], r.gets, r.updates, 0⟩
  | some e =>
    if e ≠ StoreErr.notFound then
      ⟨r.store, none, [e], r.gets, r.updates, 0⟩
    else if gpuDevices.length = 0 then
      ⟨r.store, none, [], r.gets, r.updates, 0⟩
    else
      let c := createDevice (sortByMinor gpuDevices) r.store
      match c.2 with
      | none => ⟨c.1, none, [], r.gets, r.updates, 1⟩
      | some ce => ⟨c.1, none, [ce], r.gets, r.updates, 1⟩

/-- nvml.EventTypeXidCriticalError (the event type bit the loop tests for). -/
def eventTypeXidCriticalError : Nat := 8

/-- Outcome of one eventSet.Wait(5000) call together with the subsequent
e.Device.GetUUID() resolution: ret is the wait return code, eventType and
eventData are the fields of the returned event, uuidRet and uuid are the
return code and value of the UUID lookup on the event device. -/
structure WaitResult where
  ret : NvmlRet
  eventType : Nat
  eventData : Nat
  uuidRet : NvmlRet
  uuid : String
deriving DecidableEq, Repr

/-- One iteration of the checkHealth event loop body on a wait outcome:
the identifiers sent to the xids channel for that iteration.  Mirrors the
source exactly: skip when the wait failed AND the event type is not
XidCriticalError; skip the application-level Xid codes 13, 31, 43, 45, 68;
skip when the UUID lookup failed; on an empty UUID send every monitored
device; otherwise send each monitored device equal to the UUID. -/
def processEvent (devs : List String) (w : WaitResult) : List String :=
  if w.ret ≠ NvmlRet.success ∧ w.eventType ≠ eventTypeXidCriticalError then []
  else if w.eventData = 13 ∨ w.eventData = 31 ∨ w.eventData = 43 ∨
      w.eventData = 45 ∨ w.eventData = 68 then []
  else if w.uuidRet ≠ NvmlRet.success then []
  else if w.uuid.length = 0 then devs
  else devs.filter fun d => d = w.uuid

/-- The registration phase of checkHealth: identifiers sent to the xids
channel during setup.  Per device: a failed DeviceGetHandleByUUID skips the
device; DeviceRegisterEvents returning ERROR_NOT_SUPPORTED sends the device
to xids; any other failure is only logged; handleRet and registerRet inject
the nvml return codes per device UUID. -/
def setupMarks (handleRet registerRet : String → NvmlRet) :
    List String → List String
  | [] => []
  | d :: rest =>
    if handleRet d ≠ NvmlRet.success then setupMarks handleRet registerRet rest
    else if registerRet d = NvmlRet.errorNotSupported then
      d :: setupMarks handleRet registerRet rest
    else setupMarks handleRet registerRet rest

/-- The devices whose fault-event registration was attempted and returned
SUCCESS during the setup phase of checkHealth (the devices the event set
actually watches afterwards). -/
def setupRegistered (handleRet registerRet : String → NvmlRet) :
    List String → List String
  | [] => []
  | d :: rest =>
    if handleRet d ≠ NvmlRet.success then
      setupRegistered handleRet registerRet rest
    else if registerRet d = NvmlRet.success then
      d :: setupRegistered handleRet registerRet rest
    else setupRegistered handleRet registerRet rest

/-- Identifiers sent to the xids channel by the event loop for a finite run
consuming the given sequence of wait outcomes (the loop itself runs until
the stop channel fires; a run is modelled by the list of wait outcomes it
observed before stopping). -/
def eventMarks (devs : List String) (events : List WaitResult) : List String :=
  (events.map (processEvent devs)).flatten

/-- Everything checkHealth sends to the xids channel in one session: the
setup-phase marks followed by the event-loop marks (the setup loop runs to
completion before the event loop starts). -/
def checkHealthMarks (handleRet registerRet : String → NvmlRet)
    (devs : List String) (events : List WaitResult) : List String :=
  setupMarks handleRet registerRet devs ++ eventMarks devs events

/-- The receive loop of gpuHealCheck: insert one identifier received from
the unhealthy channel into the unhealthy-GPU set (the set is a Go map;
inserting a present key leaves the set unchanged). -/
def markUnhealthy (unhealthyGPU : List String) (d : String) : List String :=
  if d ∈ unhealthyGPU then unhealthyGPU else d :: unhealthyGPU

/-- gpuHealCheck consuming one checkHealth session: fold every identifier
checkHealth sends over the insert-only receive loop, starting from the
current unhealthy-GPU set. -/
def gpuHealCheck (handleRet registerRet : String → NvmlRet)
    (devs : List String) (events : List WaitResult)
    (unhealthyGPU : List String) : List String :=
  (checkHealthMarks handleRet registerRet devs events).foldl markUnhealthy unhealthyGPU

/-- Concrete metric fixture: the end-to-end scenario device of the spec. -/
def gpu1 : GPUMetric := ⟨"GPU-1", 0, 16000000000⟩

/-- Metrics query result reporting exactly gpu1, no error. -/
def q1 : NodeResourceQueryResult := ⟨false, [gpu1]⟩

/-- Metrics query result whose query errored (empty snapshot case). -/
def qerr : NodeResourceQueryResult := ⟨true, []⟩

/-- The DeviceInfo record buildGPUDevice builds for gpu1 when it is healthy. -/
def dev1 : DeviceInfo :=
  ⟨"GPU-1", 0, DeviceType.gpu, true,
    [(ResourceName.gpuCore, 100), (ResourceName.gpuMemory, 16000000000),
     (ResourceName.gpuMemoryRatio, 100)]⟩

/-- sortByMinor produces a list nondecreasing in Minor. -/
theorem sortByMinor_sorted (l : List DeviceInfo) :
    List.Sorted minorLe (sortByMinor l) :=
  List.sorted_insertionSort minorLe l

/-- sortByMinor permutes its input. -/
theorem sortByMinor_perm (l : List DeviceInfo) : (sortByMinor l).Perm l :=
  List.perm_insertionSort minorLe l

/-- Sorting an already sorted list is the identity, hence sortByMinor is
idempotent. -/
theorem sortByMinor_idem (l : List DeviceInfo) :
    sortByMinor (sortByMinor l) = sortByMinor l :=
  (sortByMinor_sorted l).insertionSort_eq

/-- sortByMinor maps exactly the empty list to the empty list. -/
theorem sortByMinor_eq_nil_iff (l : List DeviceInfo) :
    sortByMinor l = [] ↔ l = [] := by
  constructor
  · intro h
    have hp := sortByMinor_perm l
    rw [h] at hp
    exact hp.symm.eq_nil
  · intro h
    subst h
    rfl

/-- Characterization of one update attempt against a store with no injected
Get or Update error. -/
theorem updateAttempt_faultFree (g : List DeviceInfo) (st : Store)
    (hg : st.getErr = none) (hu : st.updateErr = none) :
    updateAttempt g st =
      match st.resource with
      | none => ⟨st, some StoreErr.notFound, 1, 0⟩
      | some devs =>
        if g = sortByMinor devs then ⟨st, none, 1, 0⟩
        else ⟨{ st with resource := some g }, none, 1, 1⟩ := by
  cases hr : st.resource with
  | none => simp [updateAttempt, storeGet, hg, hr]
  | some devs =>
    by_cases he : g = sortByMinor devs <;>
      simp [updateAttempt, storeGet, storeUpdate, hg, hu, hr, he]

/-- The retry wrapper is a single attempt whenever the attempt does not
report a conflict or rate-limit error. -/
theorem retry_no_conflict (g : List DeviceInfo) (fuel : Nat) (st : Store)
    (h : ¬ ((updateAttempt g st).err = some StoreErr.conflict ∨
            (updateAttempt g st).err = some StoreErr.tooManyRequests)) :
    retryOnConflictOrTooManyRequests g fuel st = updateAttempt g st := by
  cases fuel with
  | zero => rfl
  | succ n =>
    simp only [retryOnConflictOrTooManyRequests]
    rw [if_neg h]

/-- Characterization of updateDevice against a store with no injected Get or
Update error: NotFound when no resource exists; no write when the sorted
snapshot deeply equals the sorted stored list; otherwise one write
replacing the stored list with the sorted snapshot. -/
theorem updateDevice_faultFree (g : List DeviceInfo) (st : Store)
    (hg : st.getErr = none) (hu : st.updateErr = none) :
    updateDevice g st =
      match st.resource with
      | none => ⟨st, some StoreErr.notFound, 1, 0⟩
      | some devs =>
        if sortByMinor g = sortByMinor devs then ⟨st, none, 1, 0⟩
        else ⟨{ st with resource := some (sortByMinor g) }, none, 1, 1⟩ := by
  have ha := updateAttempt_faultFree (sortByMinor g) st hg hu
  have hnc : ¬ ((updateAttempt (sortByMinor g) st).err = some StoreErr.conflict ∨
      (updateAttempt (sortByMinor g) st).err = some StoreErr.tooManyRequests) := by
    rw [ha]
    cases hr : st.resource with
    | none => simp
    | some devs =>
      by_cases he : sortByMinor g = sortByMinor devs <;> simp [he]
  unfold updateDevice
  rw [retry_no_conflict _ _ _ hnc, ha]

/-- Characterization of one full reportDevice cycle against a store with no
injected errors. -/
theorem reportDevice_faultFree (q : NodeResourceQueryResult)
    (u : List String) (st : Store)
    (hg : st.getErr = none) (hu : st.updateErr = none)
    (hc : st.createErr = none) :
    reportDevice q u st =
      match st.resource with
      | some devs =>
        if sortByMinor (buildGPUDevice q u) = sortByMinor devs then
          ⟨st, none, [], 1, 0, 0⟩
        else
          ⟨{ st with resource := some (sortByMinor (buildGPUDevice q u)) },
            none, [], 1, 1, 0⟩
      | none =>
        if (buildGPUDevice q u).length = 0 then ⟨st, none, [], 1, 0, 0⟩
        else
          ⟨{ st with resource := some (sortByMinor (buildGPUDevice q u)) },
            none, [], 1, 0, 1⟩ := by
  have hud := updateDevice_faultFree (buildGPUDevice q u) st hg hu
  cases hr : st.resource with
  | some devs =>
    rw [hr] at hud
    dsimp only at hud
    dsimp only
    by_cases he : sortByMinor (buildGPUDevice q u) = sortByMinor devs
    · rw [if_pos he] at hud
      rw [if_pos he]
      simp [reportDevice, hud]
    · rw [if_neg he] at hud
      rw [if_neg he]
      simp [reportDevice, hud]
  | none =>
    rw [hr] at hud
    dsimp only at hud
    dsimp only
    by_cases hlen : (buildGPUDevice q u).length = 0
    · rw [if_pos hlen]
      simp [reportDevice, hud, hlen]
    · rw [if_neg hlen]
      simp only [reportDevice, hud]
      simp [createDevice, storeCreate, hc, hr, hlen]

/-- Store fixture: the resource exists and already holds exactly dev1. -/
def stFull : Store := ⟨some [dev1], none, none, none⟩

/-- C1 counterexample: with an empty snapshot (metrics query errored) and a
stored resource holding one device, reportDevice does mutate the store: the
update path compares the empty snapshot against the stored list, finds them
different, and issues one update that wipes the stored device list. -/
theorem report_empty_snapshot_cex :
    buildGPUDevice qerr [] = [] ∧
    (reportDevice qerr [] stFull).updates = 1 ∧
    (reportDevice qerr [] stFull).store.resource = some [] := by decide

/-- C1 (amended): with an empty snapshot and a fault-free store, reportDevice
never creates the resource, and performs no mutation when no resource
exists; but when a resource with a non-empty device list exists, the update
path wipes it (one update write storing the empty list). -/
theorem emptySnapshot_no_create (q : NodeResourceQueryResult) (u : List String)
    (st : Store) (hg : st.getErr = none) (hu : st.updateErr = none)
    (hc : st.createErr = none) (hempty : buildGPUDevice q u = []) :
    (reportDevice q u st).creates = 0 ∧
    (st.resource = none →
      (reportDevice q u st).store = st ∧ (reportDevice q u st).updates = 0) ∧
    (∀ devs, st.resource = some devs → devs ≠ [] →
      (reportDevice q u st).store.resource = some [] ∧
      (reportDevice q u st).updates = 1) := by
  have hr := reportDevice_faultFree q u st hg hu hc
  rw [hempty] at hr
  cases hres : st.resource with
  | none =>
    rw [hres] at hr
    dsimp only at hr
    have hlen : ([] : List DeviceInfo).length = 0 := rfl
    rw [if_pos hlen] at hr
    refine ⟨by rw [hr], fun _ => by rw [hr]; exact ⟨rfl, rfl⟩, ?_⟩
    intro devs hd
    exact Option.noConfusion hd
  | some devs =>
    rw [hres] at hr
    dsimp only at hr
    by_cases hdev : devs = []
    · subst hdev
      rw [if_pos rfl] at hr
      refine ⟨by rw [hr], fun h => Option.noConfusion h, ?_⟩
      intro ds hds hne
      injection hds with hds
      exact absurd hds.symm hne
    · have hcond : ¬ (sortByMinor [] = sortByMinor devs) := by
        intro h
        exact hdev ((sortByMinor_eq_nil_iff devs).1 h.symm)
      rw [if_neg hcond] at hr
      refine ⟨by rw [hr], fun h => Option.noConfusion h, ?_⟩
      intro ds hds hne
      exact ⟨by rw [hr]; rfl, by rw [hr]⟩

/-- C1 witness: the amended theorem applied at the empty-metrics query and
the store holding dev1: the cycle wipes the stored list with one write. -/
theorem emptySnapshot_no_create_witness :
    buildGPUDevice qerr [] = [] ∧
    ((reportDevice qerr [] stFull).store.resource = some [] ∧
      (reportDevice qerr [] stFull).updates = 1) :=
  ⟨by decide,
    (emptySnapshot_no_create qerr [] stFull rfl rfl rfl (by decide)).2.2
      [dev1] rfl (by decide)⟩

/-- C2 counterexample: when the stored list already equals the snapshot, two
successive reportDevice cycles perform zero writes in total, not exactly
one. -/
theorem reconcile_exactly_one_cex :
    (reportDevice q1 [] stFull).updates + (reportDevice q1 [] stFull).creates = 0 ∧
    (reportDevice q1 [] (reportDevice q1 [] stFull).store).updates +
      (reportDevice q1 [] (reportDevice q1 [] stFull).store).creates = 0 := by decide

/-- C2 (amended): reconciliation against a fault-free store is idempotent:
when the stored list sorted by Minor deeply equals the sorted snapshot the
update path issues no write; a cycle performs at most one write; and a
second cycle with an unchanged snapshot always performs zero writes. -/
theorem reconcile_idempotent (q : NodeResourceQueryResult) (u : List String)
    (st : Store) (hg : st.getErr = none) (hu : st.updateErr = none)
    (hc : st.createErr = none) :
    (∀ devs, st.resource = some devs →
      sortByMinor (buildGPUDevice q u) = sortByMinor devs →
      (reportDevice q u st).updates = 0 ∧ (reportDevice q u st).creates = 0) ∧
    (reportDevice q u st).updates + (reportDevice q u st).creates ≤ 1 ∧
    (reportDevice q u (reportDevice q u st).store).updates = 0 ∧
    (reportDevice q u (reportDevice q u st).store).creates = 0 := by
  have hr := reportDevice_faultFree q u st hg hu hc
  have hidem := (sortByMinor_idem (buildGPUDevice q u)).symm
  cases hres : st.resource with
  | some devs =>
    rw [hres] at hr
    dsimp only at hr
    by_cases he : sortByMinor (buildGPUDevice q u) = sortByMinor devs
    · rw [if_pos he] at hr
      refine ⟨fun ds hds hse => by rw [hr]; exact ⟨rfl, rfl⟩, by simp [hr], ?_, ?_⟩
      · rw [hr]
        dsimp only
        rw [hr]
      · rw [hr]
        dsimp only
        rw [hr]
    · rw [if_neg he] at hr
      have h2 := reportDevice_faultFree q u
        { st with resource := some (sortByMinor (buildGPUDevice q u)) } hg hu hc
      dsimp only at h2
      rw [if_pos hidem] at h2
      refine ⟨fun ds hds hse => ?_, by simp [hr], ?_, ?_⟩
      · injection hds with hds
        subst hds
        exact absurd hse he
      · rw [hr]
        dsimp only
        rw [h2]
      · rw [hr]
        dsimp only
        rw [h2]
  | none =>
    rw [hres] at hr
    dsimp only at hr
    by_cases hlen : (buildGPUDevice q u).length = 0
    · rw [if_pos hlen] at hr
      refine ⟨fun ds hds hse => Option.noConfusion hds, by simp [hr], ?_, ?_⟩
      · rw [hr]
        dsimp only
        rw [hr]
      · rw [hr]
        dsimp only
        rw [hr]
    · rw [if_neg hlen] at hr
      have h2 := reportDevice_faultFree q u
        { st with resource := some (sortByMinor (buildGPUDevice q u)) } hg hu hc
      dsimp only at h2
      rw [if_pos hidem] at h2
      refine ⟨fun ds hds hse => Option.noConfusion hds, by simp [hr], ?_, ?_⟩
      · rw [hr]
        dsimp only
        rw [h2]
      · rw [hr]
        dsimp only
        rw [h2]

/-- C2 witness: the amended theorem applied at the snapshot of q1 and the
store already holding dev1: the second cycle performs zero writes. -/
theorem reconcile_idempotent_witness :
    stFull.getErr = none ∧
    ((reportDevice q1 [] (reportDevice q1 [] stFull).store).updates = 0 ∧
      (reportDevice q1 [] (reportDevice q1 [] stFull).store).creates = 0) :=
  ⟨rfl, ⟨(reconcile_idempotent q1 [] stFull rfl rfl rfl).2.2.1,
    (reconcile_idempotent q1 [] stFull rfl rfl rfl).2.2.2⟩⟩

/-- With an injected Get error the retry wrapper never mutates the store,
never writes, and hands that error back, for every fuel value. -/
theorem retry_getErr (g : List DeviceInfo) (e : StoreErr) (st : Store)
    (hg : st.getErr = some e) :
    ∀ fuel, (retryOnConflictOrTooManyRequests g fuel st).store = st ∧
      (retryOnConflictOrTooManyRequests g fuel st).err = some e ∧
      (retryOnConflictOrTooManyRequests g fuel st).updates = 0 := by
  have hatt : updateAttempt g st = ⟨st, some e, 1, 0⟩ := by
    simp [updateAttempt, storeGet, hg]
  intro fuel
  induction fuel with
  | zero => rw [retryOnConflictOrTooManyRequests, hatt]; exact ⟨rfl, rfl, rfl⟩
  | succ n ih =>
    by_cases hce : e = StoreErr.conflict ∨ e = StoreErr.tooManyRequests
    · have hcond : (updateAttempt g st).err = some StoreErr.conflict ∨
          (updateAttempt g st).err = some StoreErr.tooManyRequests := by
        rw [hatt]
        rcases hce with h | h <;> simp [h]
      rw [retryOnConflictOrTooManyRequests]
      rw [if_pos hcond, hatt]
      exact ⟨ih.1, ih.2.1, by dsimp only; rw [ih.2.2]⟩
    · have hcond : ¬ ((updateAttempt g st).err = some StoreErr.conflict ∨
          (updateAttempt g st).err = some StoreErr.tooManyRequests) := by
        rw [hatt]
        dsimp only
        simpa using hce
      rw [retry_no_conflict g (Nat.succ n) st hcond, hatt]
      exact ⟨rfl, rfl, rfl⟩

/-- Store fixture: the resource exists but Get fails with a permission
error. -/
def stForbidden : Store := ⟨some [dev1], some StoreErr.forbidden, none, none⟩

/-- C6 counterexample: with a permission (forbidden) Get error injected, the
cycle logs the error, yet the entry point hands nothing back to its caller
(the source function has no return value), contradicting the claim that a
non-recoverable store error is returned. -/
theorem report_error_returned_cex :
    (reportDevice q1 [] stForbidden).logged = [StoreErr.forbidden] ∧
    (reportDevice q1 [] stForbidden).returned = none ∧
    (reportDevice q1 [] stForbidden).returned ≠ some StoreErr.forbidden := by decide

/-- C6 (amended): reportDevice has no return value: a non-recoverable store
error (any Get error other than NotFound, such as a permission failure) is
logged and swallowed; the cycle ends with the store unmutated and nothing
handed to the caller; the next scheduled cycle simply runs again. -/
theorem report_error_swallowed (q : NodeResourceQueryResult) (u : List String)
    (st : Store) (e : StoreErr) (hg : st.getErr = some e)
    (hne : e ≠ StoreErr.notFound) :
    (reportDevice q u st).returned = none ∧
    (reportDevice q u st).logged = [e] ∧
    (reportDevice q u st).store = st := by
  have hret := retry_getErr (sortByMinor (buildGPUDevice q u)) e st hg retrySteps
  have hud : updateDevice (buildGPUDevice q u) st =
      retryOnConflictOrTooManyRequests (sortByMinor (buildGPUDevice q u))
        retrySteps st := rfl
  rcases hru : updateDevice (buildGPUDevice q u) st with ⟨rst, rerr, rg, rup⟩
  rw [← hud] at hret
  rw [hru] at hret
  obtain ⟨h1, h2, h3⟩ := hret
  dsimp only at h1 h2 h3
  subst h1 h2
  refine ⟨?_, ?_, ?_⟩ <;> simp [reportDevice, hru, hne]


/-- C6 witness: the amended theorem applied at the permission-failing store:
the error is logged, nothing is returned, the store is untouched. -/
theorem report_error_swallowed_witness :
    stForbidden.getErr = some StoreErr.forbidden ∧
    ((reportDevice q1 [] stForbidden).returned = none ∧
      (reportDevice q1 [] stForbidden).logged = [StoreErr.forbidden] ∧
      (reportDevice q1 [] stForbidden).store = stForbidden) :=
  ⟨rfl, report_error_swallowed q1 [] stForbidden StoreErr.forbidden rfl (by decide)⟩

/-- Store fixture: no resource, and Create loses a race (AlreadyExists). -/
def stRace : Store := ⟨none, none, none, some StoreErr.alreadyExists⟩

/-- C7 counterexample: with the resource absent and Create reporting
AlreadyExists (a create race), the cycle runs the update path exactly once
(one Get), issues no update write, logs the create failure, and leaves the
store unchanged: no fallback to the update path happens in the same
cycle. -/
theorem create_race_cex :
    (reportDevice q1 [] stRace).gets = 1 ∧
    (reportDevice q1 [] stRace).updates = 0 ∧
    (reportDevice q1 [] stRace).logged = [StoreErr.alreadyExists] ∧
    (reportDevice q1 [] stRace).store.resource = none := by decide

/-- C7 (amended): when the resource does not exist and Create races with a
concurrent creator (AlreadyExists), reportDevice logs the create failure
and ends the cycle with exactly one update-path pass (one Get), no update
write, and the store unchanged; the now-existing resource is left for the
next scheduled cycle. -/
theorem create_race_no_fallback (q : NodeResourceQueryResult)
    (u : List String) (st : Store) (hg : st.getErr = none)
    (hres : st.resource = none)
    (hc : st.createErr = some StoreErr.alreadyExists)
    (hne : buildGPUDevice q u ≠ []) :
    (reportDevice q u st).logged = [StoreErr.alreadyExists] ∧
    (reportDevice q u st).gets = 1 ∧
    (reportDevice q u st).updates = 0 ∧
    (reportDevice q u st).creates = 1 ∧
    (reportDevice q u st).store = st := by
  have hatt : updateAttempt (sortByMinor (buildGPUDevice q u)) st =
      ⟨st, some StoreErr.notFound, 1, 0⟩ := by
    simp [updateAttempt, storeGet, hg, hres]
  have hcond : ¬ ((updateAttempt (sortByMinor (buildGPUDevice q u)) st).err =
        some StoreErr.conflict ∨
      (updateAttempt (sortByMinor (buildGPUDevice q u)) st).err =
        some StoreErr.tooManyRequests) := by
    rw [hatt]
    simp
  have hud : updateDevice (buildGPUDevice q u) st =
      ⟨st, some StoreErr.notFound, 1, 0⟩ := by
    unfold updateDevice
    rw [retry_no_conflict _ _ _ hcond, hatt]
  have hlen : ¬ (buildGPUDevice q u).length = 0 := by
    simpa using hne
  refine ⟨?_, ?_, ?_, ?_, ?_⟩ <;>
    simp [reportDevice, hud, hlen, createDevice, storeCreate, hc]

/-- C7 witness: the amended theorem applied at the racing store and the
one-device snapshot. -/
theorem create_race_no_fallback_witness :
    buildGPUDevice q1 [] ≠ [] ∧
    ((reportDevice q1 [] stRace).logged = [StoreErr.alreadyExists] ∧
      (reportDevice q1 [] stRace).gets = 1 ∧
      (reportDevice q1 [] stRace).updates = 0 ∧
      (reportDevice q1 [] stRace).creates = 1 ∧
      (reportDevice q1 [] stRace).store = stRace) :=
  ⟨by decide, create_race_no_fallback q1 [] stRace rfl rfl rfl (by decide)⟩

/-- A string of length zero is the empty string (the emptiness test the
event loop uses is len(uuid) == 0). -/
theorem string_length_zero (s : String) (h : s.length = 0) : s = "" := by
  cases s with
  | mk data =>
    cases data with
    | nil => rfl
    | cons c cs => simp [String.length] at h

/-- Event fixture: a successfully returned non-critical event (type 1,
single-bit ECC) with fatal data code 79 resolving to GPU-1. -/
def nonCriticalEvent : WaitResult := ⟨NvmlRet.success, 1, 79, NvmlRet.success, "GPU-1"⟩

/-- C3 counterexample: a successfully returned event whose type is not the
Xid-critical category (type 1, single-bit ECC, instead of 8) with a fatal
data code (79) and a resolvable UUID still marks the matching device
unhealthy: the skip condition also requires the wait call to have
failed. -/
theorem noncritical_event_marks_cex :
    nonCriticalEvent.eventType ≠ eventTypeXidCriticalError ∧
    processEvent ["GPU-1"] nonCriticalEvent = ["GPU-1"] := by decide

/-- C3 (amended): the event loop skips an event only when the wait call
failed AND the event type is not the Xid-critical category; under those two
conditions together no device is marked in that iteration (a successfully
returned event is processed regardless of its type). -/
theorem event_skipped_when_wait_fails (devs : List String) (w : WaitResult)
    (hret : w.ret ≠ NvmlRet.success)
    (htype : w.eventType ≠ eventTypeXidCriticalError) :
    processEvent devs w = [] := by
  unfold processEvent
  rw [if_pos ⟨hret, htype⟩]

/-- Event fixture for the C3 witness: a timed-out wait. -/
def wTimeout : WaitResult := ⟨NvmlRet.errorTimeout, 0, 0, NvmlRet.success, ""⟩

/-- C3 witness: the amended theorem applied at a timed-out wait: no device is
marked. -/
theorem event_skipped_when_wait_fails_witness :
    wTimeout.ret ≠ NvmlRet.success ∧
    wTimeout.eventType ≠ eventTypeXidCriticalError ∧
    processEvent ["GPU-0"] wTimeout = [] :=
  ⟨by decide, by decide,
    event_skipped_when_wait_fails ["GPU-0"] wTimeout (by decide) (by decide)⟩

/-- C5: a fault-critical event surviving the application-code filter and
resolving successfully marks every monitored device when the identifier is
empty, and exactly the monitored devices equal to the identifier when it
is non-empty. -/
theorem ambiguous_event_marks_all (devs : List String) (w : WaitResult)
    (hcrit : w.eventType = eventTypeXidCriticalError)
    (happ : ¬ (w.eventData = 13 ∨ w.eventData = 31 ∨ w.eventData = 43 ∨
      w.eventData = 45 ∨ w.eventData = 68))
    (hres : w.uuidRet = NvmlRet.success) :
    (w.uuid = "" → processEvent devs w = devs) ∧
    (w.uuid ≠ "" →
      processEvent devs w = devs.filter (fun d => d = w.uuid) ∧
      ∀ d, d ∈ processEvent devs w ↔ d ∈ devs ∧ d = w.uuid) := by
  have hgate : ¬ (w.ret ≠ NvmlRet.success ∧
      w.eventType ≠ eventTypeXidCriticalError) := by
    intro h
    exact h.2 hcrit
  have hres2 : ¬ w.uuidRet ≠ NvmlRet.success := by
    simp [hres]
  constructor
  · intro hu
    have hlen : w.uuid.length = 0 := by
      rw [hu]
      decide
    unfold processEvent
    rw [if_neg hgate, if_neg happ, if_neg hres2, if_pos hlen]
  · intro hu
    have hlen : ¬ w.uuid.length = 0 := fun h => hu (string_length_zero w.uuid h)
    have heq : processEvent devs w = devs.filter (fun d => d = w.uuid) := by
      unfold processEvent
      rw [if_neg hgate, if_neg happ, if_neg hres2, if_neg hlen]
    refine ⟨heq, fun d => ?_⟩
    rw [heq]
    simp [List.mem_filter]

/-- Event fixture for the C5 witness: a critical event with an empty UUID. -/
def wAllEvent : WaitResult := ⟨NvmlRet.success, 8, 79, NvmlRet.success, ""⟩

/-- C5 witness: the theorem applied at a critical event resolving to the
empty identifier: both monitored devices are marked. -/
theorem ambiguous_event_marks_all_witness :
    wAllEvent.eventType = eventTypeXidCriticalError ∧ wAllEvent.uuid = "" ∧
    processEvent ["GPU-0", "GPU-1"] wAllEvent = ["GPU-0", "GPU-1"] :=
  ⟨rfl, rfl,
    (ambiguous_event_marks_all ["GPU-0", "GPU-1"] wAllEvent rfl (by decide) rfl).1 rfl⟩

/-- Inserting into the unhealthy set never removes a member. -/
theorem mem_markUnhealthy (u : List String) (d x : String) (h : x ∈ u) :
    x ∈ markUnhealthy u d := by
  unfold markUnhealthy
  split
  · exact h
  · exact List.mem_cons_of_mem d h

/-- Folding any mark sequence over the insert-only receive loop never
removes a member of the unhealthy set. -/
theorem mem_foldl_markUnhealthy (x : String) :
    ∀ (ms u : List String), x ∈ u → x ∈ ms.foldl markUnhealthy u
  | [], _, h => h
  | m :: ms, u, h =>
    mem_foldl_markUnhealthy x ms (markUnhealthy u m) (mem_markUnhealthy u m x h)

/-- C4: health is monotone within a session: an identifier already in the
unhealthy set is still in it after gpuHealCheck consumes an arbitrary
further checkHealth session (any setup outcomes, any later events, for any
devices), and every snapshot subsequently built reports that identifier,
wherever the metrics report it, with health false. -/
theorem unhealthy_monotone (d : String) (u : List String)
    (handleRet registerRet : String → NvmlRet) (devs : List String)
    (events : List WaitResult) (q : NodeResourceQueryResult)
    (hd : d ∈ u) :
    d ∈ gpuHealCheck handleRet registerRet devs events u ∧
    ∀ info ∈ buildGPUDevice q (gpuHealCheck handleRet registerRet devs events u),
      info.uuid = d → info.health = false := by
  have hmem : d ∈ gpuHealCheck handleRet registerRet devs events u :=
    mem_foldl_markUnhealthy d _ u hd
  refine ⟨hmem, ?_⟩
  intro info hinfo huuid
  unfold buildGPUDevice at hinfo
  split at hinfo
  · cases hinfo
  · split at hinfo
    · cases hinfo
    · obtain ⟨gpu, hgpu, rfl⟩ := List.mem_map.1 hinfo
      dsimp only at huuid ⊢
      rw [huuid, if_pos hmem]

/-- Handle and registration return codes for the C4 witness session. -/
def allSuccess : String → NvmlRet := fun _ => NvmlRet.success

/-- C4 witness: the theorem applied with GPU-1 already unhealthy and an empty
further session: GPU-1 is still in the set. -/
theorem unhealthy_monotone_witness :
    "GPU-1" ∈ ["GPU-1"] ∧
    "GPU-1" ∈ gpuHealCheck allSuccess allSuccess [] [] ["GPU-1"] :=
  ⟨by decide,
    (unhealthy_monotone "GPU-1" ["GPU-1"] allSuccess allSuccess [] [] q1
      (by decide)).1⟩

/-- The setup loop marks exactly the devices whose handle lookup succeeded
and whose registration returned ERROR_NOT_SUPPORTED. -/
theorem setupMarks_eq_filter (handleRet registerRet : String → NvmlRet) :
    ∀ devs : List String,
      setupMarks handleRet registerRet devs =
        devs.filter fun d =>
          decide (handleRet d = NvmlRet.success) &&
          decide (registerRet d = NvmlRet.errorNotSupported)
  | [] => rfl
  | d :: rest => by
    have ih := setupMarks_eq_filter handleRet registerRet rest
    by_cases h1 : handleRet d = NvmlRet.success
    · by_cases h2 : registerRet d = NvmlRet.errorNotSupported
      · simp [setupMarks, List.filter_cons, h1, h2, ih]
      · simp [setupMarks, List.filter_cons, h1, h2, ih]
    · simp [setupMarks, List.filter_cons, h1, ih]

/-- The setup loop successfully registers exactly the devices whose handle
lookup and registration both succeeded, independently of the outcomes for
other devices. -/
theorem setupRegistered_eq_filter (handleRet registerRet : String → NvmlRet) :
    ∀ devs : List String,
      setupRegistered handleRet registerRet devs =
        devs.filter fun d =>
          decide (handleRet d = NvmlRet.success) &&
          decide (registerRet d = NvmlRet.success)
  | [] => rfl
  | d :: rest => by
    have ih := setupRegistered_eq_filter handleRet registerRet rest
    by_cases h1 : handleRet d = NvmlRet.success
    · by_cases h2 : registerRet d = NvmlRet.success
      · simp [setupRegistered, List.filter_cons, h1, h2, ih]
      · simp [setupRegistered, List.filter_cons, h1, h2, ih]
    · simp [setupRegistered, List.filter_cons, h1, ih]

/-- C9: every device whose registration returns ERROR_NOT_SUPPORTED (after a
successful handle lookup) is marked at setup time, before any event-loop
mark; and each device is marked, or successfully registered, based only on
its own return codes, so a registration failure with another error for one
device does not prevent registration of the remaining devices. -/
theorem unsupported_marked_at_setup (handleRet registerRet : String → NvmlRet)
    (devs : List String) (events : List WaitResult) (d : String) :
    checkHealthMarks handleRet registerRet devs events =
      setupMarks handleRet registerRet devs ++ eventMarks devs events ∧
    (d ∈ setupMarks handleRet registerRet devs ↔
      d ∈ devs ∧ handleRet d = NvmlRet.success ∧
      registerRet d = NvmlRet.errorNotSupported) ∧
    (d ∈ setupRegistered handleRet registerRet devs ↔
      d ∈ devs ∧ handleRet d = NvmlRet.success ∧
      registerRet d = NvmlRet.success) := by
  refine ⟨rfl, ?_, ?_⟩
  · rw [setupMarks_eq_filter]
    simp [List.mem_filter, and_assoc]
  · rw [setupRegistered_eq_filter]
    simp [List.mem_filter, and_assoc]

/-- C10: with an error-free metrics query, buildGPUDevice constructs for each
metric-reported GPU exactly one record carrying the metric UUID and minor
index, type GPU, health true precisely when the UUID is absent from the
unhealthy set, and an always-three-entry capacity map whose keys are
GPUCore, GPUMemory, GPUMemoryRatio with values 100, the metric memory
total, and 100. -/
theorem buildGPUDevice_record_shape (q : NodeResourceQueryResult)
    (u : List String) (herr : q.hasError = false) :
    buildGPUDevice q u = q.gpus.map (fun gpu =>
      { uuid := gpu.deviceUUID
        minor := gpu.minor
        deviceType := DeviceType.gpu
        health := decide (gpu.deviceUUID ∉ u)
        resources := [(ResourceName.gpuCore, 100),
                      (ResourceName.gpuMemory, gpu.memoryTotal),
                      (ResourceName.gpuMemoryRatio, 100)] }) ∧
    ∀ info ∈ buildGPUDevice q u,
      info.resources.map Prod.fst =
        [ResourceName.gpuCore, ResourceName.gpuMemory, ResourceName.gpuMemoryRatio] ∧
      info.resources.length = 3 ∧
      info.deviceType = DeviceType.gpu ∧
      (info.health = true ↔ info.uuid ∉ u) := by
  have hhealth : ∀ x : String,
      (if x ∈ u then false else true) = decide (x ∉ u) := by
    intro x
    by_cases hx : x ∈ u <;> simp [hx]
  have hmap : buildGPUDevice q u = q.gpus.map (fun gpu =>
      { uuid := gpu.deviceUUID
        minor := gpu.minor
        deviceType := DeviceType.gpu
        health := decide (gpu.deviceUUID ∉ u)
        resources := [(ResourceName.gpuCore, 100),
                      (ResourceName.gpuMemory, gpu.memoryTotal),
                      (ResourceName.gpuMemoryRatio, 100)] }) := by
    unfold buildGPUDevice
    rw [herr]
    by_cases hlen : q.gpus.length = 0
    · rw [List.length_eq_zero.1 hlen]
      simp
    · simp only [Bool.false_eq_true, if_false, hlen, if_neg hlen]
      refine List.map_congr_left fun gpu _ => ?_
      rw [hhealth gpu.deviceUUID]
  refine ⟨hmap, ?_⟩
  intro info hinfo
  rw [hmap] at hinfo
  obtain ⟨gpu, hgpu, rfl⟩ := List.mem_map.1 hinfo
  refine ⟨rfl, rfl, rfl, ?_⟩
  dsimp only
  simp

/-- C10 witness: the end-to-end scenario of the spec: one device GPU-1 with
minor 0 and 16e9 memory, empty unhealthy set, yields exactly the record
dev1 (healthy, core 100, memory 16e9, memory ratio 100). -/
theorem buildGPUDevice_record_shape_witness :
    q1.hasError = false ∧ buildGPUDevice q1 [] = [dev1] :=
  ⟨rfl, ((buildGPUDevice_record_shape q1 [] rfl).1).trans (by decide)⟩

/-- Strict Minor order on device records (vacuously antisymmetric). -/
def minorLt (a b : DeviceInfo) : Prop := a.minor < b.minor

/-- A list nondecreasing in Minor whose minor indices are pairwise distinct
is strictly increasing in Minor. -/
theorem sorted_strict_of_nodup_minors {l : List DeviceInfo}
    (hs : List.Sorted minorLe l) (hn : (l.map DeviceInfo.minor).Nodup) :
    List.Pairwise minorLt l := by
  have hne : l.Pairwise fun a b => a.minor ≠ b.minor := List.pairwise_map.1 hn
  exact (List.Pairwise.and hs hne).imp fun h => lt_of_le_of_ne h.1 h.2

/-- Two device records sharing Minor 0 with different UUIDs. -/
def devA : DeviceInfo := ⟨"a", 0, DeviceType.gpu, true, [(ResourceName.gpuCore, 100)]⟩

/-- Companion record to devA with the same Minor. -/
def devB : DeviceInfo := ⟨"b", 0, DeviceType.gpu, true, [(ResourceName.gpuCore, 100)]⟩

/-- C8 counterexample: two lists holding the same two records (equal Minor,
different UUIDs) in different orders sort to different lists under the
Minor-only sorter, so the deep-equality comparison of updateDevice
distinguishes them: sorting by Minor is not canonical when minor indices
repeat. -/
theorem sort_order_insensitive_cex :
    ([devA, devB]).Perm [devB, devA] ∧
    sortByMinor [devA, devB] ≠ sortByMinor [devB, devA] := by decide

/-- C8 (amended): when the minor indices of the records are pairwise
distinct, the sorter is canonical: it sorts by Minor ascending, and any
two lists holding the same records in different orders sort to the same
list, so the deep-equality comparison of updateDevice treats them as
equal. -/
theorem sort_order_insensitive (l₁ l₂ : List DeviceInfo)
    (hperm : l₁.Perm l₂) (hnodup : (l₁.map DeviceInfo.minor).Nodup) :
    List.Sorted minorLe (sortByMinor l₁) ∧ sortByMinor l₁ = sortByMinor l₂ := by
  refine ⟨sortByMinor_sorted l₁, ?_⟩
  have hperm2 : (sortByMinor l₁).Perm (sortByMinor l₂) :=
    (sortByMinor_perm l₁).trans (hperm.trans (sortByMinor_perm l₂).symm)
  have hn1 : ((sortByMinor l₁).map DeviceInfo.minor).Nodup :=
    ((sortByMinor_perm l₁).map DeviceInfo.minor).nodup_iff.2 hnodup
  have hn2 : ((sortByMinor l₂).map DeviceInfo.minor).Nodup :=
    (hperm2.map DeviceInfo.minor).nodup_iff.1 hn1
  have hs1 := sorted_strict_of_nodup_minors (sortByMinor_sorted l₁) hn1
  have hs2 := sorted_strict_of_nodup_minors (sortByMinor_sorted l₂) hn2
  haveI : IsAntisymm DeviceInfo minorLt :=
    ⟨fun a b h₁ h₂ => absurd h₁ (not_lt.2 (le_of_lt h₂))⟩
  exact List.eq_of_perm_of_sorted hperm2 hs1 hs2

/-- Device record with Minor 0 for the C8 witness. -/
def devM0 : DeviceInfo := ⟨"GPU-0", 0, DeviceType.gpu, true, []⟩

/-- Device record with Minor 1 for the C8 witness. -/
def devM1 : DeviceInfo := ⟨"GPU-1b", 1, DeviceType.gpu, true, []⟩

/-- C8 witness: the amended theorem applied at two orderings of two records
with distinct minors: both sort to the same list. -/
theorem sort_order_insensitive_witness :
    ([devM1, devM0]).Perm [devM0, devM1] ∧
    sortByMinor [devM1, devM0] = sortByMinor [devM0, devM1] :=
  ⟨by decide,
    (sort_order_insensitive [devM1, devM0] [devM0, devM1] (by decide) (by decide)).2⟩
